import Mathlib

/-!
Shallow embedding of the Gaussian Naive Bayes core of `NaiveBayes.h`
(fruit classifier). Training feature values, observed sample values and the
loop accumulators are embedded as rationals (the C doubles hold small exact
measurements in every code path modelled here); the square root and the
exponential act at the real-number boundary. The unguarded C division
`sumOfSqDiff/divisor` with `divisor == 0` produces the platform NaN inside
`sqrt`; that undefined result is modelled as `none` in an `Option ℝ` return.
-/

/-- Modelled from the spec (§3 FeatureKind): the attribute selectors are
defined in `TrainingDataLinkedList.h`, which is not part of the source here;
the source comments enumerate 0: Hue, 1: Saturation, 2: Value,
3: Compactness, and texture is the fifth kind. -/
def HUE : ℕ := 0

def SATURATION : ℕ := 1

def VALUE : ℕ := 2

def COMPACTNESS : ℕ := 3

def TEXTURE : ℕ := 4

/-- Source line 13: the low-precision pi literal defined by the header.
The density at line 142 does not use it; it uses OpenCV's `CV_PI`. -/
def PI : ℝ := 3.14159

/-- Source line 14: the fixed number of candidate classes. -/
def NCLASSES : ℕ := 7

/-- Modelled from the spec (§4.2 numeric contract): `CV_PI`, used at source
line 142, comes from the external OpenCV headers, where it is the
double-precision literal 3.1415926535897932384626433832795. -/
def CV_PI : ℝ := 3.1415926535897932384626433832795

/-- Modelled from the spec (§3 TrainingRecord): the `TrainingItem` struct and
its linked list live in `TrainingDataLinkedList.h`, which is not part of the
source here. One labelled training example: a class label and the five
numeric feature values h, s, v, c, t. The list itself is embedded as a Lean
`List`. -/
structure TrainingItem where
  fruitName : String
  h : ℚ
  s : ℚ
  v : ℚ
  c : ℚ
  t : ℚ

/-- Modelled from the spec (§6, OpenCV): `CvScalar` packs numeric components
accessed by index; the classifier reads indices HUE, SATURATION, VALUE of the
sample. -/
structure CvScalar where
  val : ℕ → ℚ

/-- Source lines 20–25: HSV threshold ranges per class. The C field `class`
is a Lean keyword and is rendered `cl`; only the label field is read by this
core. -/
structure HSV_Range where
  cl : String
  h1 : ℕ
  h2 : ℕ
  h3 : ℕ
  h4 : ℕ
  s1 : ℕ
  s2 : ℕ
  v1 : ℕ
  v2 : ℕ

/-- The validity guard of the mean loop (source lines 41–45): label match and
nonzero h, s, v, t. Compactness is not checked here. -/
def meanValid (r : TrainingItem) (fruitName : String) : Bool :=
  r.fruitName == fruitName && r.h != 0 && r.s != 0 && r.v != 0 && r.t != 0

/-- The attribute dispatch inside the mean loop (source lines 47–57): the
if-chain adds the selected field to the accumulator; an unrecognised selector
adds nothing. -/
def meanContrib (attr : ℕ) (r : TrainingItem) : ℚ :=
  if HUE = attr then r.h
  else if SATURATION = attr then r.s
  else if VALUE = attr then r.v
  else if COMPACTNESS = attr then r.c
  else if TEXTURE = attr then r.t
  else 0

/-- One iteration of the mean loop (source lines 40–63); the accumulator pair
is (mean, divisor). -/
def meanStep (fruitName : String) (attr : ℕ) (acc : ℚ × ℚ) (r : TrainingItem) :
    ℚ × ℚ :=
  if meanValid r fruitName then (acc.1 + meanContrib attr r, acc.2 + 1) else acc

/-- `calcHSVCT_Mean` (source lines 35–69): accumulate sum and count over the
records passing the four-field guard, then divide only when the count is
positive, otherwise return the accumulated sum unchanged (which is then 0). -/
def calcHSVCT_Mean (p_head : List TrainingItem) (fruitName : String)
    (attr : ℕ) : ℚ :=
  let res := p_head.foldl (meanStep fruitName attr) (0, 0)
  if 0 < res.2 then res.1 / res.2 else res.1

/-- The validity guard of the standard-deviation loop (source lines 93–98):
label match and nonzero h, s, v, c, t — compactness is checked here, unlike
in the mean loop. -/
def sdValid (r : TrainingItem) (fruitName : String) : Bool :=
  r.fruitName == fruitName && r.h != 0 && r.s != 0 && r.v != 0 &&
    r.c != 0 && r.t != 0

/-- The attribute dispatch inside the SD loop (source lines 101–111): the
if-chain adds the squared deviation of the selected field from `avg`; an
unrecognised selector adds nothing. -/
def sdContrib (attr : ℕ) (avg : ℚ) (r : TrainingItem) : ℚ :=
  if HUE = attr then (r.h - avg) ^ 2
  else if SATURATION = attr then (r.s - avg) ^ 2
  else if VALUE = attr then (r.v - avg) ^ 2
  else if COMPACTNESS = attr then (r.c - avg) ^ 2
  else if TEXTURE = attr then (r.t - avg) ^ 2
  else 0

/-- One iteration of the SD loop (source lines 92–116); the accumulator pair
is (sumOfSqDiff, divisor). -/
def sdStep (fruitName : String) (attr : ℕ) (avg : ℚ) (acc : ℚ × ℚ)
    (r : TrainingItem) : ℚ × ℚ :=
  if sdValid r fruitName then (acc.1 + sdContrib attr avg r, acc.2 + 1) else acc

/-- The accumulator pair (sumOfSqDiff, divisor) left by the SD loop of
`calcHSVCT_SD` (source lines 86–116), after the single call to
`calcHSVCT_Mean` at line 87. Kept as a separate computable rational layer;
only the square root below leaves the rationals. -/
def sdAccum (p_head : List TrainingItem) (fruitName : String) (attr : ℕ) :
    ℚ × ℚ :=
  let avg := calcHSVCT_Mean p_head fruitName attr
  p_head.foldl (sdStep fruitName attr avg) (0, 0)

/-- `calcHSVCT_SD` (source lines 84–122): calls `calcHSVCT_Mean` once, then
accumulates the squared deviations over the records passing the five-field
guard and returns `sqrt(sumOfSqDiff/divisor)` with NO guard on the divisor.
When the divisor is 0 the sum is also 0 and the C code computes
`sqrt(0.0/0.0)`, the platform NaN; that undefined value is modelled as
`none`. -/
noncomputable def calcHSVCT_SD (p_head : List TrainingItem)
    (fruitName : String) (attr : ℕ) : Option ℝ :=
  let res := sdAccum p_head fruitName attr
  if res.2 = 0 then none else some (Real.sqrt ((res.1 : ℝ) / (res.2 : ℝ)))

/-- `calcHSVCT_PDF` (source lines 136–148): the Gaussian density. The C guard
`if(sd>0)` is false when `sd` is the NaN from the unguarded division
(modelled `none`) and when `sd` is zero or negative, leaving the initial
`pdf = 0.0`. In the positive case it returns
`1/(sd*sqrt(2*CV_PI)) * exp((-1)*(val-mean)^2/(2*sd^2))`. -/
noncomputable def calcHSVCT_PDF (p_head : List TrainingItem)
    (fruitName : String) (attr : ℕ) (val : ℚ) : ℝ :=
  let mean := calcHSVCT_Mean p_head fruitName attr
  match calcHSVCT_SD p_head fruitName attr with
  | none => 0
  | some sd =>
    if 0 < sd then
      (1 / (sd * Real.sqrt (2 * CV_PI))) *
        Real.exp ((-1) * ((val : ℝ) - (mean : ℝ)) ^ 2 / (2 * sd ^ 2))
    else 0

/-- `calcPosterior` (source lines 156–173): evaluates the five per-feature
densities — the C field `class` parameter is rendered `fruitName` — and
multiplies only hue, saturation, value and compactness into the returned
score (`post = pH*pS*pV*pC`, line 169). The texture density `pT` is computed
at line 163 and only printed (line 164); it does not enter the product. -/
noncomputable def calcPosterior (tDataHead : List TrainingItem)
    (fruitName : String) (sampleHSV : CvScalar) (sampleC : ℚ)
    (texture : ℚ) : ℝ :=
  let pH := calcHSVCT_PDF tDataHead fruitName HUE (sampleHSV.val HUE)
  let pS := calcHSVCT_PDF tDataHead fruitName SATURATION
    (sampleHSV.val SATURATION)
  let pV := calcHSVCT_PDF tDataHead fruitName VALUE (sampleHSV.val VALUE)
  let pC := calcHSVCT_PDF tDataHead fruitName COMPACTNESS sampleC
  let pT := calcHSVCT_PDF tDataHead fruitName TEXTURE texture
  pH * pS * pV * pC

/-- Modelled from the spec (§4.4): `addPosterior` lives in the missing
linked-list header; §4.4 states the builder "appends each (label, score) pair
to the result collection in the same order as the candidate list". The result
collection is embedded as a list of (label, score) pairs. -/
noncomputable def addPosterior (post : List (String × ℝ))
    (fruitName : String) (pProb : ℝ) : List (String × ℝ) :=
  post ++ [(fruitName, pProb)]

/-- `calcPosteriors` (source lines 183–192): `for(class = 0; class < NCLASSES;
class++)` over the candidate array — the caller must supply at least NCLASSES
entries, embedded as a function from `Fin NCLASSES`. -/
noncomputable def calcPosteriors (tData : List TrainingItem)
    (classes : Fin NCLASSES → HSV_Range) (hsvSample : CvScalar)
    (cSample : ℚ) (texture : ℚ) : List (String × ℝ) :=
  (List.finRange NCLASSES).foldl
    (fun post i =>
      addPosterior post (classes i).cl
        (calcPosterior tData (classes i).cl hsvSample cSample texture)) []

/-- The subset of records the mean loop accumulates over: those passing the
four-field guard. It does not depend on the attribute selector. -/
def meanSel (items : List TrainingItem) (fruitName : String) :
    List TrainingItem :=
  items.filter (fun r => meanValid r fruitName)

/-- The subset of records the SD loop accumulates over: those passing the
five-field guard. It does not depend on the attribute selector. -/
def sdSel (items : List TrainingItem) (fruitName : String) :
    List TrainingItem :=
  items.filter (fun r => sdValid r fruitName)

/-- The claim's reading of the standard deviation: rescan the SAME subset the
mean selected (the four-field filter), average the squared deviations from
the mean over that subset, and take the square root. Stated from the spec's
words for comparison with `calcHSVCT_SD`, which actually rescans with its own
five-field filter. -/
noncomputable def standardDeviation_meanSubset (items : List TrainingItem)
    (fruitName : String) (attr : ℕ) : Option ℝ :=
  let avg := calcHSVCT_Mean items fruitName attr
  let sel := meanSel items fruitName
  if sel.length = 0 then none
  else some (Real.sqrt (((sel.map (sdContrib attr avg)).sum : ℝ) /
    (sel.length : ℝ)))

/-! ### Loop characterisations -/

lemma foldl_meanStep (fruitName : String) (attr : ℕ) :
    ∀ (items : List TrainingItem) (acc : ℚ × ℚ),
      items.foldl (meanStep fruitName attr) acc =
        (acc.1 + ((meanSel items fruitName).map (meanContrib attr)).sum,
         acc.2 + ((meanSel items fruitName).length : ℚ)) := by
  intro items
  induction items with
  | nil => intro acc; simp [meanSel]
  | cons r rs ih =>
    intro acc
    rw [List.foldl_cons, ih]
    by_cases hr : meanValid r fruitName
    · simp only [meanStep, hr, if_true, meanSel, List.filter_cons,
        List.map_cons, List.sum_cons, List.length_cons, Prod.mk.injEq]
      constructor <;> push_cast <;> ring
    · simp only [meanStep, hr, if_false, meanSel, List.filter_cons,
        Bool.false_eq_true, Prod.mk.injEq]

lemma foldl_sdStep (fruitName : String) (attr : ℕ) (avg : ℚ) :
    ∀ (items : List TrainingItem) (acc : ℚ × ℚ),
      items.foldl (sdStep fruitName attr avg) acc =
        (acc.1 + ((sdSel items fruitName).map (sdContrib attr avg)).sum,
         acc.2 + ((sdSel items fruitName).length : ℚ)) := by
  intro items
  induction items with
  | nil => intro acc; simp [sdSel]
  | cons r rs ih =>
    intro acc
    rw [List.foldl_cons, ih]
    by_cases hr : sdValid r fruitName
    · simp only [sdStep, hr, if_true, sdSel, List.filter_cons,
        List.map_cons, List.sum_cons, List.length_cons, Prod.mk.injEq]
      constructor <;> push_cast <;> ring
    · simp only [sdStep, hr, if_false, sdSel, List.filter_cons,
        Bool.false_eq_true, Prod.mk.injEq]

lemma calcHSVCT_Mean_eq (items : List TrainingItem) (fruitName : String)
    (attr : ℕ) :
    calcHSVCT_Mean items fruitName attr =
      if (meanSel items fruitName).length = 0 then 0
      else ((meanSel items fruitName).map (meanContrib attr)).sum /
        ((meanSel items fruitName).length : ℚ) := by
  unfold calcHSVCT_Mean
  rw [foldl_meanStep]
  rcases Nat.eq_zero_or_pos (meanSel items fruitName).length with h | h
  · have hnil : meanSel items fruitName = [] := List.length_eq_zero.mp h
    simp [hnil]
  · have h0 : (0 : ℚ) < ((meanSel items fruitName).length : ℚ) := by
      exact_mod_cast h
    rw [if_pos (by simpa using h0), if_neg (Nat.pos_iff_ne_zero.mp h)]
    simp

lemma sdAccum_eq (items : List TrainingItem) (fruitName : String)
    (attr : ℕ) :
    sdAccum items fruitName attr =
      (((sdSel items fruitName).map
          (sdContrib attr (calcHSVCT_Mean items fruitName attr))).sum,
        ((sdSel items fruitName).length : ℚ)) := by
  unfold sdAccum
  rw [foldl_sdStep]
  simp

lemma calcHSVCT_SD_eq (items : List TrainingItem) (fruitName : String)
    (attr : ℕ) :
    calcHSVCT_SD items fruitName attr =
      if (sdSel items fruitName).length = 0 then none
      else some (Real.sqrt
        ((((sdSel items fruitName).map
            (sdContrib attr (calcHSVCT_Mean items fruitName attr))).sum : ℝ) /
          ((sdSel items fruitName).length : ℝ))) := by
  unfold calcHSVCT_SD
  rw [sdAccum_eq]
  by_cases h : (sdSel items fruitName).length = 0
  · simp [h]
  · have hq : ((sdSel items fruitName).length : ℚ) ≠ 0 :=
      Nat.cast_ne_zero.mpr h
    rw [if_neg h]
    simp only [hq, if_false]
    push_cast
    rfl

/-! ### Sign and shape facts -/

lemma calcHSVCT_PDF_nonneg (items : List TrainingItem) (fruitName : String)
    (attr : ℕ) (val : ℚ) : 0 ≤ calcHSVCT_PDF items fruitName attr val := by
  unfold calcHSVCT_PDF
  cases hsd : calcHSVCT_SD items fruitName attr with
  | none => simp
  | some sd =>
    by_cases h : 0 < sd
    · simp only [if_pos h]
      exact mul_nonneg
        (div_nonneg zero_le_one
          (mul_nonneg h.le (Real.sqrt_nonneg _)))
        (Real.exp_pos _).le
    · simp [h]

lemma calcPosterior_nonneg (tData : List TrainingItem) (fruitName : String)
    (hsv : CvScalar) (c : ℚ) (t : ℚ) :
    0 ≤ calcPosterior tData fruitName hsv c t := by
  unfold calcPosterior
  exact mul_nonneg
    (mul_nonneg
      (mul_nonneg (calcHSVCT_PDF_nonneg _ _ _ _) (calcHSVCT_PDF_nonneg _ _ _ _))
      (calcHSVCT_PDF_nonneg _ _ _ _))
    (calcHSVCT_PDF_nonneg _ _ _ _)

lemma foldl_append_singleton {α β : Type} (g : α → β) :
    ∀ (l : List α) (acc : List β),
      l.foldl (fun post i => post ++ [g i]) acc = acc ++ l.map g := by
  intro l
  induction l with
  | nil => intro acc; simp
  | cons a l ih =>
    intro acc
    rw [List.foldl_cons, ih]
    simp

lemma calcPosteriors_eq (tData : List TrainingItem)
    (classes : Fin NCLASSES → HSV_Range) (hsv : CvScalar) (c : ℚ) (t : ℚ) :
    calcPosteriors tData classes hsv c t =
      (List.finRange NCLASSES).map
        (fun i => ((classes i).cl, calcPosterior tData (classes i).cl hsv c t)) := by
  unfold calcPosteriors addPosterior
  rw [foldl_append_singleton
    (fun i : Fin NCLASSES =>
      ((classes i).cl, calcPosterior tData (classes i).cl hsv c t))]
  simp

/-! ### Claims -/

/-- C1, counterexample: with an empty record list (zero matching records) the
source computes `sd = sqrt(sumOfSqDiff/divisor)` with both accumulators at
zero and no guard, i.e. `sqrt(0.0/0.0)`, the platform NaN — modelled `none`.
It does not return 0.0 and it returns no defined real value at all, so the
claim that a zero count yields 0.0 or a defined sentinel instead of the
propagated NaN is false of this code. -/
theorem C1_counterexample :
    calcHSVCT_SD [] "apple" HUE = none ∧
      ¬ ∃ x : ℝ, calcHSVCT_SD [] "apple" HUE = some x := by
  have h : calcHSVCT_SD [] "apple" HUE = none := by
    unfold calcHSVCT_SD sdAccum
    simp
  refine ⟨h, ?_⟩
  rw [h]
  simp

/-- C1, amended: whenever the count of records passing the SD loop's filter
is zero, `calcHSVCT_SD` propagates the undefined zero-by-zero result of
`sqrt(sumOfSqDiff/divisor)` — the platform NaN, modelled `none` — rather than
returning 0.0 or any guarded sentinel real value. -/
theorem C1_sd_zero_count_propagates_nan (items : List TrainingItem)
    (fruitName : String) (attr : ℕ)
    (h : (sdSel items fruitName).length = 0) :
    calcHSVCT_SD items fruitName attr = none := by
  rw [calcHSVCT_SD_eq, if_pos h]

/-- C1, witness for the amended theorem: a single record with a different
label leaves the SD filter count at zero and the result undefined. -/
theorem C1_sd_zero_count_propagates_nan_witness :
    (sdSel [⟨"banana", 1, 1, 1, 1, 1⟩] "apple").length = 0 ∧
      calcHSVCT_SD [⟨"banana", 1, 1, 1, 1, 1⟩] "apple" HUE = none := by
  have h : (sdSel [(⟨"banana", 1, 1, 1, 1, 1⟩ : TrainingItem)] "apple").length = 0 := by
    decide
  exact ⟨h, C1_sd_zero_count_propagates_nan _ _ HUE h⟩

/-- C2: the posterior score is exactly the product of the four Gaussian
densities for hue, saturation, value and compactness at the sample's
corresponding values; the texture density is evaluated in the source only for
the diagnostic print, so two calls that differ only in the texture argument
return the same score. -/
theorem C2_posterior_product_excludes_texture (tData : List TrainingItem)
    (fruitName : String) (hsv : CvScalar) (c : ℚ) (t t' : ℚ) :
    calcPosterior tData fruitName hsv c t =
        calcHSVCT_PDF tData fruitName HUE (hsv.val HUE) *
          calcHSVCT_PDF tData fruitName SATURATION (hsv.val SATURATION) *
          calcHSVCT_PDF tData fruitName VALUE (hsv.val VALUE) *
          calcHSVCT_PDF tData fruitName COMPACTNESS c ∧
      calcPosterior tData fruitName hsv c t =
        calcPosterior tData fruitName hsv c t' :=
  ⟨rfl, rfl⟩

/-- C3: whenever the computed standard deviation is not strictly positive —
either the undefined no-data case (modelled `none`) or a `some` value that is
zero or negative — the density `calcHSVCT_PDF` returns exactly 0; it is a
total function into ℝ, so it never raises and never produces an infinite or
undefined value. -/
theorem C3_nonpositive_sd_density_zero (items : List TrainingItem)
    (fruitName : String) (attr : ℕ) (val : ℚ) :
    (calcHSVCT_SD items fruitName attr = none →
        calcHSVCT_PDF items fruitName attr val = 0) ∧
      ∀ s : ℝ, calcHSVCT_SD items fruitName attr = some s → s ≤ 0 →
        calcHSVCT_PDF items fruitName attr val = 0 := by
  constructor
  · intro h
    simp only [calcHSVCT_PDF, h]
  · intro s hs hle
    simp only [calcHSVCT_PDF, hs]
    rw [if_neg (not_lt.mpr hle)]

/-- C3, witness: two identical records give spread zero, the SD evaluates to
`some 0`, and the density at an arbitrary observed value 7 is exactly 0. -/
theorem C3_nonpositive_sd_density_zero_witness :
    calcHSVCT_SD [⟨"a", 5, 1, 1, 1, 1⟩, ⟨"a", 5, 1, 1, 1, 1⟩] "a" HUE = some 0 ∧
      (0 : ℝ) ≤ 0 ∧
      calcHSVCT_PDF [⟨"a", 5, 1, 1, 1, 1⟩, ⟨"a", 5, 1, 1, 1, 1⟩] "a" HUE 7 = 0 := by
  have hm : calcHSVCT_Mean [⟨"a", 5, 1, 1, 1, 1⟩, ⟨"a", 5, 1, 1, 1, 1⟩] "a" HUE = 5 := by
    have g1 : meanValid ⟨"a", 5, 1, 1, 1, 1⟩ "a" = true := by decide
    unfold calcHSVCT_Mean
    rw [List.foldl_cons, List.foldl_cons, List.foldl_nil]
    simp only [meanStep, g1, if_true, meanContrib, HUE]
    norm_num
  have s1 : sdValid ⟨"a", 5, 1, 1, 1, 1⟩ "a" = true := by decide
  have hacc : sdAccum [⟨"a", 5, 1, 1, 1, 1⟩, ⟨"a", 5, 1, 1, 1, 1⟩] "a" HUE = (0, 2) := by
    unfold sdAccum
    rw [hm, List.foldl_cons, List.foldl_cons, List.foldl_nil]
    simp only [sdStep, s1, if_true, sdContrib, HUE]
    norm_num
  have hsd : calcHSVCT_SD [⟨"a", 5, 1, 1, 1, 1⟩, ⟨"a", 5, 1, 1, 1, 1⟩] "a" HUE = some 0 := by
    unfold calcHSVCT_SD
    rw [hacc]
    norm_num
  exact ⟨hsd, le_refl 0,
    (C3_nonpositive_sd_density_zero _ _ _ 7).2 0 hsd (le_refl 0)⟩

/-- C4: the mean is the sum of the selected feature's values over the records
whose label matches exactly and whose (four-field) validity guard passes,
divided by the count of those records, and it is 0 when that count is zero —
the function is total, so the empty case raises nothing. The second conjunct
ties the dispatch to the named features, the third spells out the guard. -/
theorem C4_mean_is_filtered_average (items : List TrainingItem)
    (fruitName : String) (attr : ℕ) :
    (calcHSVCT_Mean items fruitName attr =
        if (meanSel items fruitName).length = 0 then 0
        else ((meanSel items fruitName).map (meanContrib attr)).sum /
          ((meanSel items fruitName).length : ℚ)) ∧
      (∀ r : TrainingItem, meanContrib HUE r = r.h ∧
        meanContrib SATURATION r = r.s ∧ meanContrib VALUE r = r.v ∧
        meanContrib COMPACTNESS r = r.c ∧ meanContrib TEXTURE r = r.t) ∧
      (∀ r : TrainingItem, meanValid r fruitName = true ↔
        (r.fruitName = fruitName ∧ r.h ≠ 0 ∧ r.s ≠ 0 ∧ r.v ≠ 0 ∧ r.t ≠ 0)) := by
  refine ⟨calcHSVCT_Mean_eq items fruitName attr, ?_, ?_⟩
  · intro r
    refine ⟨?_, ?_, ?_, ?_, ?_⟩ <;>
      norm_num [meanContrib, HUE, SATURATION, VALUE, COMPACTNESS, TEXTURE]
  · intro r
    simp only [meanValid, Bool.and_eq_true, bne_iff_ne, beq_iff_eq, ne_eq]
    tauto

/-- C5, counterexample: the SD loop does NOT rescan the same filtered subset
as the mean. With records of hue 10, 20, 40 where the first has compactness
0, the mean averages all three (70/3) but the SD loop skips the first record:
the code returns sqrt((2600/9)/2) = sqrt(1300/9), while averaging the squared
deviations over the mean's subset would give sqrt((4200/9)/3) = sqrt(1400/9). -/
theorem C5_counterexample :
    calcHSVCT_SD
        [⟨"a", 10, 1, 1, 0, 1⟩, ⟨"a", 20, 1, 1, 1, 1⟩, ⟨"a", 40, 1, 1, 1, 1⟩]
        "a" HUE ≠
      standardDeviation_meanSubset
        [⟨"a", 10, 1, 1, 0, 1⟩, ⟨"a", 20, 1, 1, 1, 1⟩, ⟨"a", 40, 1, 1, 1, 1⟩]
        "a" HUE := by
  have g1 : meanValid ⟨"a", 10, 1, 1, 0, 1⟩ "a" = true := by decide
  have g2 : meanValid ⟨"a", 20, 1, 1, 1, 1⟩ "a" = true := by decide
  have g3 : meanValid ⟨"a", 40, 1, 1, 1, 1⟩ "a" = true := by decide
  have s1 : sdValid ⟨"a", 10, 1, 1, 0, 1⟩ "a" = false := by decide
  have s2 : sdValid ⟨"a", 20, 1, 1, 1, 1⟩ "a" = true := by decide
  have s3 : sdValid ⟨"a", 40, 1, 1, 1, 1⟩ "a" = true := by decide
  have hm : calcHSVCT_Mean
      [⟨"a", 10, 1, 1, 0, 1⟩, ⟨"a", 20, 1, 1, 1, 1⟩, ⟨"a", 40, 1, 1, 1, 1⟩]
      "a" HUE = 70 / 3 := by
    unfold calcHSVCT_Mean
    rw [List.foldl_cons, List.foldl_cons, List.foldl_cons, List.foldl_nil]
    simp only [meanStep, g1, g2, g3, if_true, meanContrib, HUE]
    norm_num
  have hacc : sdAccum
      [⟨"a", 10, 1, 1, 0, 1⟩, ⟨"a", 20, 1, 1, 1, 1⟩, ⟨"a", 40, 1, 1, 1, 1⟩]
      "a" HUE = (2600 / 9, 2) := by
    unfold sdAccum
    rw [hm, List.foldl_cons, List.foldl_cons, List.foldl_cons, List.foldl_nil]
    simp only [sdStep, s1, s2, s3, if_true, if_false, Bool.false_eq_true,
      sdContrib, HUE]
    norm_num
  have hsd : calcHSVCT_SD
      [⟨"a", 10, 1, 1, 0, 1⟩, ⟨"a", 20, 1, 1, 1, 1⟩, ⟨"a", 40, 1, 1, 1, 1⟩]
      "a" HUE = some (Real.sqrt (1300 / 9)) := by
    unfold calcHSVCT_SD
    rw [hacc]
    norm_num
  have hclaim : standardDeviation_meanSubset
      [⟨"a", 10, 1, 1, 0, 1⟩, ⟨"a", 20, 1, 1, 1, 1⟩, ⟨"a", 40, 1, 1, 1, 1⟩]
      "a" HUE = some (Real.sqrt (1400 / 9)) := by
    unfold standardDeviation_meanSubset
    rw [hm]
    simp only [meanSel, List.filter_cons, g1, g2, g3, if_true,
      List.filter_nil, List.length_cons, List.length_nil, List.map_cons,
      List.map_nil, List.sum_cons, List.sum_nil, sdContrib, HUE]
    norm_num
  rw [hsd, hclaim]
  intro hcontra
  exact absurd (Option.some.inj hcontra)
    (ne_of_lt (Real.sqrt_lt_sqrt (by positivity) (by norm_num)))

/-- C5, amended: `calcHSVCT_SD` calls the mean once, then rescans the records
passing its OWN five-field filter (which additionally checks compactness, so
in general a subset of the mean's records) and, whenever that count is
nonzero, returns the square root of the average of the squared deviations
from that mean over that subset — the population standard deviation, dividing
by the count with no Bessel (n-1) correction. -/
theorem C5_sd_population_over_own_filter (items : List TrainingItem)
    (fruitName : String) (attr : ℕ)
    (h : (sdSel items fruitName).length ≠ 0) :
    calcHSVCT_SD items fruitName attr = some (Real.sqrt
      ((((sdSel items fruitName).map
          (sdContrib attr (calcHSVCT_Mean items fruitName attr))).sum : ℝ) /
        ((sdSel items fruitName).length : ℝ))) := by
  rw [calcHSVCT_SD_eq, if_neg h]

/-- C5, witness for the amended theorem: two valid records of one class make
the SD filter count nonzero and the conclusion holds at that input. -/
theorem C5_sd_population_over_own_filter_witness :
    (sdSel [⟨"a", 1, 1, 1, 1, 1⟩, ⟨"a", 3, 1, 1, 1, 1⟩] "a").length ≠ 0 ∧
      calcHSVCT_SD [⟨"a", 1, 1, 1, 1, 1⟩, ⟨"a", 3, 1, 1, 1, 1⟩] "a" HUE =
        some (Real.sqrt
          ((((sdSel [⟨"a", 1, 1, 1, 1, 1⟩, ⟨"a", 3, 1, 1, 1, 1⟩] "a").map
              (sdContrib HUE (calcHSVCT_Mean
                [⟨"a", 1, 1, 1, 1, 1⟩, ⟨"a", 3, 1, 1, 1, 1⟩] "a" HUE))).sum : ℝ) /
            ((sdSel [⟨"a", 1, 1, 1, 1, 1⟩, ⟨"a", 3, 1, 1, 1, 1⟩] "a").length : ℝ))) := by
  have h : (sdSel [(⟨"a", 1, 1, 1, 1, 1⟩ : TrainingItem),
      ⟨"a", 3, 1, 1, 1, 1⟩] "a").length ≠ 0 := by decide
  exact ⟨h, C5_sd_population_over_own_filter _ _ HUE h⟩

/-- C6: the validity guard is whole-record. (a) A record with hue, saturation,
value or texture zero is excluded from BOTH statistics for EVERY attribute
selector. (b) A matching record whose compactness alone is zero enters the
mean loop's selection (so it contributes to every mean) but is dropped from
the SD loop's selection. (c) The mean guard checks exactly label plus four of
the five fields (not compactness); the SD guard additionally checks
compactness. -/
theorem C6_whole_record_guard_asymmetry (l1 l2 : List TrainingItem)
    (r : TrainingItem) (fruitName : String) (attr : ℕ) :
    ((r.h = 0 ∨ r.s = 0 ∨ r.v = 0 ∨ r.t = 0) →
        calcHSVCT_Mean (l1 ++ r :: l2) fruitName attr =
            calcHSVCT_Mean (l1 ++ l2) fruitName attr ∧
          calcHSVCT_SD (l1 ++ r :: l2) fruitName attr =
            calcHSVCT_SD (l1 ++ l2) fruitName attr) ∧
      ((r.fruitName = fruitName ∧ r.h ≠ 0 ∧ r.s ≠ 0 ∧ r.v ≠ 0 ∧ r.t ≠ 0 ∧
          r.c = 0) →
        meanSel (l1 ++ r :: l2) fruitName =
            meanSel l1 fruitName ++ r :: meanSel l2 fruitName ∧
          sdSel (l1 ++ r :: l2) fruitName = sdSel (l1 ++ l2) fruitName) ∧
      (meanValid r fruitName = true ↔
        (r.fruitName = fruitName ∧ r.h ≠ 0 ∧ r.s ≠ 0 ∧ r.v ≠ 0 ∧ r.t ≠ 0)) ∧
      (sdValid r fruitName = true ↔
        (r.fruitName = fruitName ∧ r.h ≠ 0 ∧ r.s ≠ 0 ∧ r.v ≠ 0 ∧ r.c ≠ 0 ∧
          r.t ≠ 0)) := by
  refine ⟨?_, ?_, ?_, ?_⟩
  · intro hzero
    have hmv : meanValid r fruitName = false := by
      rcases hzero with h | h | h | h <;> simp [meanValid, h]
    have hsv : sdValid r fruitName = false := by
      rcases hzero with h | h | h | h <;> simp [sdValid, h]
    have hmsel : meanSel (l1 ++ r :: l2) fruitName =
        meanSel (l1 ++ l2) fruitName := by
      simp [meanSel, List.filter_append, List.filter_cons, hmv]
    have hssel : sdSel (l1 ++ r :: l2) fruitName =
        sdSel (l1 ++ l2) fruitName := by
      simp [sdSel, List.filter_append, List.filter_cons, hsv]
    have hmean : calcHSVCT_Mean (l1 ++ r :: l2) fruitName attr =
        calcHSVCT_Mean (l1 ++ l2) fruitName attr := by
      rw [calcHSVCT_Mean_eq, calcHSVCT_Mean_eq, hmsel]
    refine ⟨hmean, ?_⟩
    rw [calcHSVCT_SD_eq, calcHSVCT_SD_eq, hssel, hmean]
  · intro hc
    obtain ⟨hfn, hh, hs, hv, ht, hcz⟩ := hc
    have hmv : meanValid r fruitName = true := by
      simp [meanValid, hfn, hh, hs, hv, ht]
    have hsv : sdValid r fruitName = false := by
      simp [sdValid, hcz]
    constructor
    · simp [meanSel, List.filter_append, List.filter_cons, hmv]
    · simp [sdSel, List.filter_append, List.filter_cons, hsv]
  · simp only [meanValid, Bool.and_eq_true, bne_iff_ne, beq_iff_eq, ne_eq]
    tauto
  · simp only [sdValid, Bool.and_eq_true, bne_iff_ne, beq_iff_eq, ne_eq]
    tauto

/-- C6, witness: a record with hue 0 leaves both the mean and the SD of the
class unchanged when inserted, and a record with compactness 0 but the other
four fields present enters the mean selection yet leaves the SD selection
unchanged. -/
theorem C6_whole_record_guard_asymmetry_witness :
    (calcHSVCT_Mean [⟨"a", 0, 1, 1, 1, 1⟩, ⟨"a", 7, 2, 2, 2, 2⟩] "a" HUE =
        calcHSVCT_Mean [⟨"a", 7, 2, 2, 2, 2⟩] "a" HUE ∧
      calcHSVCT_SD [⟨"a", 0, 1, 1, 1, 1⟩, ⟨"a", 7, 2, 2, 2, 2⟩] "a" HUE =
        calcHSVCT_SD [⟨"a", 7, 2, 2, 2, 2⟩] "a" HUE) ∧
      (meanSel [⟨"a", 7, 2, 2, 0, 2⟩, ⟨"a", 5, 1, 1, 1, 1⟩] "a" =
          meanSel ([] : List TrainingItem) "a" ++ ⟨"a", 7, 2, 2, 0, 2⟩ ::
            meanSel [⟨"a", 5, 1, 1, 1, 1⟩] "a" ∧
        sdSel [⟨"a", 7, 2, 2, 0, 2⟩, ⟨"a", 5, 1, 1, 1, 1⟩] "a" =
          sdSel [⟨"a", 5, 1, 1, 1, 1⟩] "a") := by
  constructor
  · exact (C6_whole_record_guard_asymmetry [] [⟨"a", 7, 2, 2, 2, 2⟩]
      ⟨"a", 0, 1, 1, 1, 1⟩ "a" HUE).1 (Or.inl rfl)
  · exact (C6_whole_record_guard_asymmetry [] [⟨"a", 5, 1, 1, 1, 1⟩]
      ⟨"a", 7, 2, 2, 0, 2⟩ "a" HUE).2.1
      ⟨rfl, by norm_num, by norm_num, by norm_num, by norm_num, rfl⟩

/-- C7: whenever the computed standard deviation is a defined, strictly
positive value s, the density equals
(1/(s*sqrt(2*CV_PI))) * exp(-((observedValue - mean)^2)/(2*s^2)); and the pi
constant the density uses, OpenCV's CV_PI, agrees with pi to within 10^-6
while the header's own low-precision literal PI = 3.14159 is farther than
2*10^-6 from pi — the code takes pi at standard double precision, not from
the lower-precision literal. -/
theorem C7_gaussian_density_formula (items : List TrainingItem)
    (fruitName : String) (attr : ℕ) (val : ℚ) (s : ℝ)
    (hs : calcHSVCT_SD items fruitName attr = some s) (hpos : 0 < s) :
    calcHSVCT_PDF items fruitName attr val =
        (1 / (s * Real.sqrt (2 * CV_PI))) *
          Real.exp (-(((val : ℝ) -
              ((calcHSVCT_Mean items fruitName attr : ℚ) : ℝ)) ^ 2) /
            (2 * s ^ 2)) ∧
      |CV_PI - Real.pi| < 1 / 1000000 ∧ 2 / 1000000 < |PI - Real.pi| := by
  refine ⟨?_, ?_, ?_⟩
  · simp only [calcHSVCT_PDF, hs]
    rw [if_pos hpos]
    congr 1
    ring_nf
  · have c1 : (3.1415926 : ℝ) < CV_PI := by norm_num [CV_PI]
    have c2 : CV_PI < (3.1415927 : ℝ) := by norm_num [CV_PI]
    have p1 := Real.pi_gt_d6
    have p2 := Real.pi_lt_d6
    rw [abs_sub_lt_iff]
    constructor <;> norm_num <;> linarith
  · have hPI : PI = (3.14159 : ℝ) := rfl
    have p1 := Real.pi_gt_d6
    have hneg : PI - Real.pi < 0 := by rw [hPI]; linarith
    rw [abs_of_neg hneg, hPI]
    linarith

/-- C7, witness: hue values 1 and 3 of one class give mean 2 and standard
deviation 1, and the density at observed value 2 takes the stated closed
form. -/
theorem C7_gaussian_density_formula_witness :
    calcHSVCT_SD [⟨"a", 1, 1, 1, 1, 1⟩, ⟨"a", 3, 1, 1, 1, 1⟩] "a" HUE =
        some 1 ∧
      (0 : ℝ) < 1 ∧
      calcHSVCT_PDF [⟨"a", 1, 1, 1, 1, 1⟩, ⟨"a", 3, 1, 1, 1, 1⟩] "a" HUE 2 =
        (1 / (1 * Real.sqrt (2 * CV_PI))) *
          Real.exp (-((((2 : ℚ) : ℝ) -
              ((calcHSVCT_Mean [⟨"a", 1, 1, 1, 1, 1⟩, ⟨"a", 3, 1, 1, 1, 1⟩]
                "a" HUE : ℚ) : ℝ)) ^ 2) /
            (2 * 1 ^ 2)) := by
  have g1 : meanValid ⟨"a", 1, 1, 1, 1, 1⟩ "a" = true := by decide
  have g2 : meanValid ⟨"a", 3, 1, 1, 1, 1⟩ "a" = true := by decide
  have s1 : sdValid ⟨"a", 1, 1, 1, 1, 1⟩ "a" = true := by decide
  have s2 : sdValid ⟨"a", 3, 1, 1, 1, 1⟩ "a" = true := by decide
  have hm : calcHSVCT_Mean [⟨"a", 1, 1, 1, 1, 1⟩, ⟨"a", 3, 1, 1, 1, 1⟩]
      "a" HUE = 2 := by
    unfold calcHSVCT_Mean
    rw [List.foldl_cons, List.foldl_cons, List.foldl_nil]
    simp only [meanStep, g1, g2, if_true, meanContrib, HUE]
    norm_num
  have hacc : sdAccum [⟨"a", 1, 1, 1, 1, 1⟩, ⟨"a", 3, 1, 1, 1, 1⟩]
      "a" HUE = (2, 2) := by
    unfold sdAccum
    rw [hm, List.foldl_cons, List.foldl_cons, List.foldl_nil]
    simp only [sdStep, s1, s2, if_true, sdContrib, HUE]
    norm_num
  have hsd : calcHSVCT_SD [⟨"a", 1, 1, 1, 1, 1⟩, ⟨"a", 3, 1, 1, 1, 1⟩]
      "a" HUE = some 1 := by
    unfold calcHSVCT_SD
    rw [hacc]
    norm_num
  exact ⟨hsd, one_pos,
    (C7_gaussian_density_formula _ _ _ 2 1 hsd one_pos).1⟩

/-- C8: the posterior set builder visits the fixed candidate list — NCLASSES
entries, reference value 7 — in index order, invoking the posterior once per
candidate and appending the (label, score) pair, with no sorting,
normalisation or winner selection: the result IS the index-ordered map of the
candidates, and it has exactly NCLASSES entries whatever the scores are. -/
theorem C8_posteriors_once_per_class_in_order (tData : List TrainingItem)
    (classes : Fin NCLASSES → HSV_Range) (hsv : CvScalar) (c : ℚ) (t : ℚ) :
    calcPosteriors tData classes hsv c t =
        (List.finRange NCLASSES).map
          (fun i => ((classes i).cl,
            calcPosterior tData (classes i).cl hsv c t)) ∧
      (calcPosteriors tData classes hsv c t).length = NCLASSES ∧
      NCLASSES = 7 := by
  refine ⟨calcPosteriors_eq tData classes hsv c t, ?_, rfl⟩
  rw [calcPosteriors_eq]
  simp

/-- C9: every posterior score is non-negative: the density is 0 or a product
of a positive normalising factor and an exponential, the posterior is a
product of four densities, and every pair the set builder emits carries such
a posterior. -/
theorem C9_scores_nonneg (tData : List TrainingItem) (fruitName : String)
    (hsv : CvScalar) (c : ℚ) (t : ℚ) (classes : Fin NCLASSES → HSV_Range) :
    0 ≤ calcPosterior tData fruitName hsv c t ∧
      ∀ p : String × ℝ, p ∈ calcPosteriors tData classes hsv c t →
        0 ≤ p.2 := by
  refine ⟨calcPosterior_nonneg tData fruitName hsv c t, ?_⟩
  intro p hp
  rw [calcPosteriors_eq] at hp
  obtain ⟨i, -, rfl⟩ := List.mem_map.mp hp
  exact calcPosterior_nonneg tData (classes i).cl hsv c t

/-- C9, witness: with an empty training set the first emitted pair is a
member of the result and its score is non-negative (it is in fact 0). -/
theorem C9_scores_nonneg_witness :
    0 ≤ calcPosterior [] "a" ⟨fun _ => 0⟩ 0 0 ∧
      0 ≤ (("a", calcPosterior [] "a" ⟨fun _ => 0⟩ 0 0) : String × ℝ).2 := by
  have hmem : (("a", calcPosterior [] "a" ⟨fun _ => 0⟩ 0 0) : String × ℝ) ∈
      calcPosteriors [] (fun _ => ⟨"a", 0, 0, 0, 0, 0, 0, 0, 0⟩)
        ⟨fun _ => 0⟩ 0 0 := by
    rw [calcPosteriors_eq]
    exact List.mem_map.mpr
      ⟨⟨0, by norm_num [NCLASSES]⟩, List.mem_finRange _, rfl⟩
  exact ⟨(C9_scores_nonneg [] "a" ⟨fun _ => 0⟩ 0 0
      (fun _ => ⟨"a", 0, 0, 0, 0, 0, 0, 0, 0⟩)).1,
    (C9_scores_nonneg [] "a" ⟨fun _ => 0⟩ 0 0
      (fun _ => ⟨"a", 0, 0, 0, 0, 0, 0, 0, 0⟩)).2 _ hmem⟩

/-- C10: for an attribute selector outside the five feature kinds the mean
loop accumulates nothing while its divisor still counts, so the mean is 0;
the SD loop likewise accumulates nothing, so the standard deviation is the
undefined value (no matching record) or exactly 0, and in either case the
`sd > 0` guard fails and the density is exactly 0. -/
theorem C10_unknown_attribute_density_zero (items : List TrainingItem)
    (fruitName : String) (attr : ℕ) (val : ℚ)
    (h : ¬(attr = HUE ∨ attr = SATURATION ∨ attr = VALUE ∨
      attr = COMPACTNESS ∨ attr = TEXTURE)) :
    calcHSVCT_Mean items fruitName attr = 0 ∧
      (calcHSVCT_SD items fruitName attr = none ∨
        calcHSVCT_SD items fruitName attr = some 0) ∧
      calcHSVCT_PDF items fruitName attr val = 0 := by
  push_neg at h
  obtain ⟨h1, h2, h3, h4, h5⟩ := h
  have hcontrib : ∀ r : TrainingItem, meanContrib attr r = 0 := by
    intro r
    simp only [meanContrib]
    rw [if_neg (fun hh => h1 hh.symm), if_neg (fun hh => h2 hh.symm),
      if_neg (fun hh => h3 hh.symm), if_neg (fun hh => h4 hh.symm),
      if_neg (fun hh => h5 hh.symm)]
  have hsdcontrib : ∀ (avg : ℚ) (r : TrainingItem),
      sdContrib attr avg r = 0 := by
    intro avg r
    simp only [sdContrib]
    rw [if_neg (fun hh => h1 hh.symm), if_neg (fun hh => h2 hh.symm),
      if_neg (fun hh => h3 hh.symm), if_neg (fun hh => h4 hh.symm),
      if_neg (fun hh => h5 hh.symm)]
  have hmsum : ((meanSel items fruitName).map (meanContrib attr)).sum = 0 := by
    apply List.sum_eq_zero
    intro x hx
    obtain ⟨r, -, rfl⟩ := List.mem_map.mp hx
    exact hcontrib r
  have hmean : calcHSVCT_Mean items fruitName attr = 0 := by
    rw [calcHSVCT_Mean_eq, hmsum]
    split <;> simp
  have hssum : ((sdSel items fruitName).map
      (sdContrib attr (calcHSVCT_Mean items fruitName attr))).sum = 0 := by
    apply List.sum_eq_zero
    intro x hx
    obtain ⟨r, -, rfl⟩ := List.mem_map.mp hx
    exact hsdcontrib _ r
  have hsd : calcHSVCT_SD items fruitName attr = none ∨
      calcHSVCT_SD items fruitName attr = some 0 := by
    rw [calcHSVCT_SD_eq, hssum]
    by_cases hl : (sdSel items fruitName).length = 0
    · exact Or.inl (if_pos hl)
    · refine Or.inr ?_
      rw [if_neg hl]
      norm_num
  refine ⟨hmean, hsd, ?_⟩
  rcases hsd with hnone | hzero
  · simp only [calcHSVCT_PDF, hnone]
  · simp only [calcHSVCT_PDF, hzero]
    rw [if_neg (lt_irrefl 0)]

/-- C10, witness: selector 5 is none of the five feature kinds; on a
one-record training set the mean is 0, the SD is defined but 0, and the
density is 0. -/
theorem C10_unknown_attribute_density_zero_witness :
    ¬((5 : ℕ) = HUE ∨ (5 : ℕ) = SATURATION ∨ (5 : ℕ) = VALUE ∨
        (5 : ℕ) = COMPACTNESS ∨ (5 : ℕ) = TEXTURE) ∧
      calcHSVCT_Mean [⟨"a", 1, 1, 1, 1, 1⟩] "a" 5 = 0 ∧
      (calcHSVCT_SD [⟨"a", 1, 1, 1, 1, 1⟩] "a" 5 = none ∨
        calcHSVCT_SD [⟨"a", 1, 1, 1, 1, 1⟩] "a" 5 = some 0) ∧
      calcHSVCT_PDF [⟨"a", 1, 1, 1, 1, 1⟩] "a" 5 9 = 0 := by
  have h : ¬((5 : ℕ) = HUE ∨ (5 : ℕ) = SATURATION ∨ (5 : ℕ) = VALUE ∨
      (5 : ℕ) = COMPACTNESS ∨ (5 : ℕ) = TEXTURE) := by decide
  obtain ⟨hm, hsd, hpdf⟩ :=
    C10_unknown_attribute_density_zero [⟨"a", 1, 1, 1, 1, 1⟩] "a" 5 9 h
  exact ⟨h, hm, hsd, hpdf⟩
